import Mathlib

/-!
Verification of the Braze backend of `basket` (`basket/news/backends/braze.py`)
against its natural-language specification.

The Python code is shallowly embedded: JSON-like Python values become the
inductive type `PyVal`, dicts become insertion-ordered association lists with
unique keys maintained by construction, and fallible code returns
`Except PyErr`.  External collaborator functions that live outside the
backend (the newsletter slug registry) are passed as explicit function
parameters; the locale-normalization helpers, which are consumed as pure
functions and are not part of this backend, are modelled from the spec.
-/

set_option autoImplicit false

/-- A Python value as it appears in the braze backend payloads: `None`,
booleans, strings, integers, lists and (string-keyed) dicts. -/
inductive PyVal where
  | none : PyVal
  | bool : Bool → PyVal
  | str : String → PyVal
  | int : Int → PyVal
  | list : List PyVal → PyVal
  | dict : List (String × PyVal) → PyVal
  deriving Repr

/-- A Python dict, represented as an insertion-ordered association list. -/
abbrev PyDict := List (String × PyVal)

mutual

/-- Python `==` on embedded values (structural equality for these types). -/
def PyVal.beq : PyVal → PyVal → Bool
  | .none, .none => true
  | .bool a, .bool b => a == b
  | .str a, .str b => a == b
  | .int a, .int b => a == b
  | .list a, .list b => PyVal.beqL a b
  | .dict a, .dict b => PyVal.beqD a b
  | _, _ => false

/-- Python `==` on lists of embedded values. -/
def PyVal.beqL : List PyVal → List PyVal → Bool
  | [], [] => true
  | x :: xs, y :: ys => PyVal.beq x y && PyVal.beqL xs ys
  | _, _ => false

/-- Python `==` on dicts of embedded values (association lists; the embedding
keeps dicts in insertion order with unique keys, and the code only ever
compares values built with matching key order). -/
def PyVal.beqD : List (String × PyVal) → List (String × PyVal) → Bool
  | [], [] => true
  | (k, v) :: xs, (l, w) :: ys => k == l && PyVal.beq v w && PyVal.beqD xs ys
  | _, _ => false

end


/-- Python truthiness (`bool(v)`): `None`, `False`, `""`, `0`, `[]` and `{}`
are falsy, everything else is truthy. -/
def PyVal.truthy : PyVal → Bool
  | .none => false
  | .bool b => b
  | .str s => s != ""
  | .int n => n != 0
  | .list xs => !xs.isEmpty
  | .dict xs => !xs.isEmpty

/-- First-occurrence lookup on an association list (a Python dict holds each
key at most once, so this is the dict lookup). -/
def PyDict.get : PyDict → String → Option PyVal
  | [], _ => Option.none
  | (k, v) :: rest, key => if k = key then some v else PyDict.get rest key

/-- Python `d.get(key)`: the stored value, or `None` if the key is absent. -/
def PyDict.getN (d : PyDict) (key : String) : PyVal :=
  (PyDict.get d key).getD .none

/-- Python `d.get(key, default)`: the stored value (even if it is `None`),
or the default only when the key is absent. -/
def PyDict.getDflt (d : PyDict) (key : String) (dflt : PyVal) : PyVal :=
  (PyDict.get d key).getD dflt

/-- `key in d`. -/
def PyDict.hasKey (d : PyDict) (key : String) : Bool :=
  (PyDict.get d key).isSome

/-- Python `d[key] = v`: replace the value in place if the key exists
(keeping its position, as Python dicts do), else append. -/
def PyDict.set : PyDict → String → PyVal → PyDict
  | [], key, v => [(key, v)]
  | (k, w) :: rest, key, v =>
      if k = key then (k, v) :: rest else (k, w) :: PyDict.set rest key v

/-- Remove the first occurrence of a key (dict deletion). -/
def PyDict.eraseKey : PyDict → String → PyDict
  | [], _ => []
  | (k, v) :: rest, key =>
      if k = key then rest else (k, v) :: PyDict.eraseKey rest key

/-- Python `d.pop(key, default)`: the removed value and the remaining dict. -/
def PyDict.popDflt (d : PyDict) (key : String) (dflt : PyVal) : PyVal × PyDict :=
  match PyDict.get d key with
  | some v => (v, PyDict.eraseKey d key)
  | Option.none => (dflt, d)

/-- Python `d1 | d2`: keys of `d1` in order, values overridden by `d2`;
keys only in `d2` appended in `d2`'s order. -/
def PyDict.merge (d1 d2 : PyDict) : PyDict :=
  d2.foldl (fun acc kv => PyDict.set acc kv.1 kv.2) d1

/-- Errors the embedded Python code can raise.  The `braze*` constructors are
the exception classes defined by the backend; the others are builtin Python
exceptions reachable from the embedded code paths. -/
inductive PyErr where
  | brazeBadRequest : String → PyErr
  | brazeUnauthorized : String → PyErr
  | brazeForbidden : String → PyErr
  | brazeNotFound : String → PyErr
  | brazeRateLimit : String → PyErr
  | brazeInternalServer : String → PyErr
  | brazeUserNotFoundByEmail : PyErr
  | brazeClient : String → PyErr
  | attributeError : String → PyErr
  | typeError : String → PyErr
  | keyError : String → PyErr
  | indexError : String → PyErr
  | valueError : String → PyErr
  | notImplementedError : PyErr
  deriving Repr, DecidableEq

/-- The raw response body carried by a classified Braze HTTP error, if any
(the "context" in the spec's words). -/
def PyErr.message : PyErr → Option String
  | .brazeBadRequest m => some m
  | .brazeUnauthorized m => some m
  | .brazeForbidden m => some m
  | .brazeNotFound m => some m
  | .brazeRateLimit m => some m
  | .brazeInternalServer m => some m
  | .brazeClient m => some m
  | _ => Option.none

/-- Python `v[key]` subscript: `KeyError` on a dict without the key,
`TypeError` on non-subscriptable values. -/
def PyVal.getItem : PyVal → String → Except PyErr PyVal
  | .dict d, key =>
      match PyDict.get d key with
      | some v => .ok v
      | Option.none => .error (.keyError key)
  | _, _ => .error (.typeError "object is not subscriptable")

/-- Python `v[0]`: first element of a list (or first character of a string);
`IndexError` when empty, `KeyError`/`TypeError` on other values. -/
def PyVal.itemZero : PyVal → Except PyErr PyVal
  | .list (x :: _) => .ok x
  | .list [] => .error (.indexError "list index out of range")
  | .str s => if s = "" then .error (.indexError "string index out of range")
              else .ok (.str (s.take 1))
  | .dict _ => .error (.keyError "0")
  | _ => .error (.typeError "object is not subscriptable")

/-- Python `v.get(key, default)` where `v` must be a dict
(`AttributeError` otherwise). -/
def PyVal.getAttrDflt (v : PyVal) (key : String) (dflt : PyVal) : Except PyErr PyVal :=
  match v with
  | .dict d => .ok (PyDict.getDflt d key dflt)
  | _ => .error (.attributeError "get")

/-!
## External collaborator functions

`process_country` and `process_lang` live in the CTMS backend
(`basket/news/backends/ctms.py`), which is outside this backend and is
consumed as a pair of pure normalization functions; they are modelled from
the spec.  `is_valid_uuid` (`basket/base/utils.py`) is likewise modelled
from the spec.  The newsletter registry lookups `slug_to_vendor_id` and
`vendor_id_to_slug` are passed to the embedded functions as explicit
parameters.
-/

/-- Lower-case an ASCII character. -/
def pyLowerChar (c : Char) : Char :=
  if 65 ≤ c.toNat && c.toNat ≤ 90 then Char.ofNat (c.toNat + 32) else c

/-- Lower-case a string (ASCII, which covers the ISO codes and URL schemes
involved). -/
def pyLower (s : String) : String := String.mk (s.toList.map pyLowerChar)

/-- Modelled from the spec: `process_country` (CTMS locale-normalization
helper, absent from the sources) normalizes a raw country to its
lower-cased ISO form ("country (ISO lower-cased)", §3; the spec's own
examples map "CA" to "ca" and "US" to "us"); an absent value stays
absent. -/
def process_country : PyVal → PyVal
  | .str s => .str (pyLower s)
  | _ => .none

/-- Modelled from the spec: `process_lang` (CTMS locale-normalization
helper, absent from the sources) normalizes a raw language code to its
lower-cased form and falls back to the default `"en"` when the value is
absent or empty ("lang: ... else default \"en\"", §4.2; the repo's tests
expect `email_lang` `"en"` when no `lang` is supplied). -/
def process_lang : PyVal → PyVal
  | .str s => if s = "" then .str "en" else .str (pyLower s)
  | _ => .str "en"

/-- Is `c` a hexadecimal digit? -/
def isHexDigit (c : Char) : Bool :=
  c.isDigit || ("abcdefABCDEF".toList.contains c)

/-- Modelled from the spec: `is_valid_uuid` (`basket/base/utils.py`, absent
from the sources) — "a UUID-validity check used to discard malformed vendor
ids" (§6).  Accepts the canonical hyphenated 8-4-4-4-12 hexadecimal form;
`None` (an unresolvable slug) is not a valid UUID. -/
def is_valid_uuid : Option String → Bool
  | Option.none => false
  | some s =>
      let cs := s.toList
      s.length = 36 &&
      (List.range 36).all (fun i =>
        if i = 8 || i = 13 || i = 18 || i = 23 then cs.getD i ' ' = '-'
        else isHexDigit (cs.getD i ' '))

/-!
## URL parsing (urllib.parse, standard library collaborator)

Only the `scheme` and `netloc` components matter to the backend; the
fragment of `urlparse` computing them is embedded.
-/

/-- Characters allowed in a URL scheme after the leading letter. -/
def isSchemeChar (c : Char) : Bool :=
  c.isAlphanum || c = '+' || c = '-' || c = '.'

/-- The scheme and the rest of the URL, per `urllib.parse`: a scheme is a
leading alphabetic character followed by scheme characters and a colon;
otherwise the scheme is empty and the whole string is the rest. -/
def urlparseScheme (url : String) : String × String :=
  let cs := url.toList
  match cs.findIdx? (· = ':') with
  | some i =>
      let pre := cs.take i
      match pre with
      | [] => ("", url)
      | c :: rest =>
          if c.isAlpha && rest.all isSchemeChar then
            (pyLower (String.mk pre), String.mk (cs.drop (i + 1)))
          else ("", url)
  | Option.none => ("", url)

/-- The netloc of the rest of a URL (after scheme removal): present only
after a leading `"//"`, running up to the next `/`, `?` or `#`. -/
def urlparseNetloc (rest : String) : String :=
  let cs := rest.toList
  match cs with
  | '/' :: '/' :: tail =>
      String.mk (tail.takeWhile (fun c => c ≠ '/' && c ≠ '?' && c ≠ '#'))
  | _ => ""

/-- The `(scheme, netloc)` pair of `urllib.parse.urlparse`. -/
def urlparseSN (url : String) : String × String :=
  let (scheme, rest) := urlparseScheme url
  (scheme, urlparseNetloc rest)

/-- `urlunparse((scheme, netloc, "", "", "", ""))`. -/
def urlunparseSN (scheme netloc : String) : String :=
  scheme ++ "://" ++ netloc

/-!
## Transport client (`BrazeInterface`)
-/

/-- The Braze endpoints (`BrazeEndpoint` enum). -/
inductive BrazeEndpoint where
  | CAMPAIGNS_TRIGGER_SEND
  | USERS_EXPORT_IDS
  | USERS_TRACK
  | USERS_DELETE
  | SUBSCRIPTION_USER_STATUS
  deriving Repr, DecidableEq

/-- The endpoint paths (the enum values). -/
def BrazeEndpoint.value : BrazeEndpoint → String
  | .CAMPAIGNS_TRIGGER_SEND => "/campaigns/trigger/send"
  | .USERS_EXPORT_IDS => "/users/export/ids"
  | .USERS_TRACK => "/users/track"
  | .USERS_DELETE => "/users/delete"
  | .SUBSCRIPTION_USER_STATUS => "/subscription/user/status"

/-- An HTTP response from the vendor: status code, raw text body, and the
decoded JSON body (`response.json()`). -/
structure HttpResponse where
  status : Nat
  text : String
  jsonBody : PyVal
  deriving Repr

/-- The environment of a call: what the vendor answers on each endpoint. -/
abbrev HttpOracle := BrazeEndpoint → HttpResponse

/-- A request issued to the vendor: the endpoint and the payload sent
(body for POST, query params for GET). -/
abbrev HttpCall := BrazeEndpoint × PyVal

/-- The immutable transport-client state established by
`BrazeInterface.__init__`. -/
structure BrazeInterface where
  api_url : String
  api_key : String
  active : Bool
  deriving Repr, DecidableEq

/-- `BrazeInterface.__init__(base_url, api_key)`: parse the base URL,
raise `ValueError("Invalid base_url")` when the scheme or the netloc is
missing, keep only scheme and netloc as the api url, and set
`active = bool(api_key)`.  (The empty-key configuration warning is a
non-fatal side effect with no bearing on the returned state.) -/
def BrazeInterface.init (base_url api_key : String) : Except PyErr BrazeInterface :=
  let sn := urlparseSN base_url
  if sn.1 = "" || sn.2 = "" then
    .error (.valueError "Invalid base_url")
  else
    .ok { api_url := urlunparseSN sn.1 sn.2, api_key := api_key, active := api_key ≠ "" }

/-- The status-code classification of `BrazeInterface._request`'s
`except requests.exceptions.HTTPError` handler: each classified error
carries `exc.response.text` as its message. -/
def classifyStatus (status : Nat) (message : String) : PyErr :=
  if status = 400 then .brazeBadRequest message
  else if status = 401 then .brazeUnauthorized message
  else if status = 403 then .brazeForbidden message
  else if status = 404 then .brazeNotFound message
  else if status = 429 then .brazeRateLimit message
  else if 500 ≤ status ∧ status ≤ 599 then .brazeInternalServer message
  else .brazeClient message

/-- Does `response.raise_for_status()` raise?  (`requests` raises
`HTTPError` exactly for status codes 400–599.) -/
def raiseForStatus (status : Nat) : Bool :=
  400 ≤ status && status ≤ 599

/-- `BrazeInterface._request(endpoint, data)`: when the client is inactive
it returns `None` without issuing any HTTP call; otherwise it issues the
request and returns the JSON body, or raises the classified error for a
status on which `raise_for_status` raises.  The second component is the
list of HTTP calls issued. -/
def BrazeInterface.request (iface : BrazeInterface) (oracle : HttpOracle)
    (endpoint : BrazeEndpoint) (data : PyVal) :
    Except PyErr (Option PyVal) × List HttpCall :=
  if !iface.active then (.ok Option.none, [])
  else if raiseForStatus (oracle endpoint).status then
    (.error (classifyStatus (oracle endpoint).status (oracle endpoint).text),
     [(endpoint, data)])
  else
    (.ok (some (oracle endpoint).jsonBody), [(endpoint, data)])

/-- The `attributes` and `events` payload built by
`BrazeInterface.track_user(email, event, user_data)`; `now` is the frozen
`timezone.now().isoformat()` value. -/
def trackUserData (now : String) (email : String) (event : Option String)
    (user_data : Option PyDict) : PyVal :=
  let step1 : PyVal × Option PyDict :=
    match user_data with
    | Option.none => (.none, Option.none)
    | some d =>
        if d.isEmpty then (.dict [], some d)
        else
          let p := PyDict.popDflt d "email_id" .none
          (p.1, some p.2)
  let email_id := step1.1
  let step2 : PyVal :=
    match step1.2 with
    | Option.none => .none
    | some d =>
        if d.isEmpty then .dict []
        else (PyDict.popDflt d "basket_token" .none).1
  let basket_token := step2
  let attributes : PyDict :=
    if email_id.truthy then
      [("email", .str email),
       ("external_id", email_id),
       ("basket_token", basket_token)]
    else
      let base : PyDict :=
        [("email", .str email),
         ("_update_existing_only", .bool false),
         ("user_alias", .dict [("alias_name", .str email), ("alias_label", .str "email")])]
      if basket_token.truthy then PyDict.set base "basket_token" basket_token
      else base
  let data : PyDict := [("attributes", .list [.dict attributes])]
  match event with
  | some ev =>
      if ev ≠ "" then
        let events : PyDict :=
          [("name", .str ev), ("time", .str now)]
        let events :=
          if email_id.truthy then PyDict.set events "external_id" email_id
          else PyDict.set events "user_alias"
                 (.dict [("alias_name", .str email), ("alias_label", .str "email")])
        .dict (PyDict.set data "events" (.list [.dict events]))
      else .dict data
  | Option.none => .dict data

/-- `BrazeInterface.track_user`. -/
def BrazeInterface.track_user (iface : BrazeInterface) (oracle : HttpOracle)
    (now : String) (email : String) (event : Option String)
    (user_data : Option PyDict) :
    Except PyErr (Option PyVal) × List HttpCall :=
  iface.request oracle .USERS_TRACK (trackUserData now email event user_data)

/-- The payload of `BrazeInterface.export_users(email, fields_to_export,
external_id)`. -/
def exportUsersData (email : String) (fields_to_export : Option PyVal)
    (external_id : Option PyVal) : PyVal :=
  let data : PyDict :=
    [("user_aliases", .list [.dict [("alias_name", .str email), ("alias_label", .str "email")]]),
     ("email_address", .str email)]
  let data :=
    match external_id with
    | some v => if v.truthy then PyDict.set data "external_ids" (.list [v]) else data
    | Option.none => data
  let data :=
    match fields_to_export with
    | some v => if v.truthy then PyDict.set data "fields_to_export" v else data
    | Option.none => data
  .dict data

/-- `BrazeInterface.export_users`. -/
def BrazeInterface.export_users (iface : BrazeInterface) (oracle : HttpOracle)
    (email : String) (fields_to_export : Option PyVal) (external_id : Option PyVal) :
    Except PyErr (Option PyVal) × List HttpCall :=
  iface.request oracle .USERS_EXPORT_IDS (exportUsersData email fields_to_export external_id)

/-- The payload of `BrazeInterface.delete_user(email)`. -/
def deleteUserData (email : String) : PyVal :=
  .dict [("email_addresses",
          .list [.dict [("email", .str email),
                        ("prioritization", .list [.str "most_recently_updated"])]])]

/-- `BrazeInterface.delete_user`. -/
def BrazeInterface.delete_user (iface : BrazeInterface) (oracle : HttpOracle)
    (email : String) : Except PyErr (Option PyVal) × List HttpCall :=
  iface.request oracle .USERS_DELETE (deleteUserData email)

/-- The payload of `BrazeInterface.send_campaign(email, campaign_id)`. -/
def sendCampaignData (email campaign_id : String) : PyVal :=
  .dict [("campaign_id", .str campaign_id),
         ("broadcast", .bool false),
         ("recipients",
          .list [.dict [("user_alias",
                         .dict [("alias_label", .str "email"),
                                ("alias_name", .str email)])]])]

/-- `BrazeInterface.send_campaign`. -/
def BrazeInterface.send_campaign (iface : BrazeInterface) (oracle : HttpOracle)
    (email campaign_id : String) : Except PyErr (Option PyVal) × List HttpCall :=
  iface.request oracle .CAMPAIGNS_TRIGGER_SEND (sendCampaignData email campaign_id)

/-- The query params of `BrazeInterface.get_user_subscriptions`. -/
def subscriptionParams (external_id : PyVal) (email : String) : PyVal :=
  .dict [("external_id", external_id), ("email", .str email)]

/-- `BrazeInterface.get_user_subscriptions` (a GET request; the logged
payload is its query params). -/
def BrazeInterface.get_user_subscriptions (iface : BrazeInterface) (oracle : HttpOracle)
    (external_id : PyVal) (email : String) :
    Except PyErr (Option PyVal) × List HttpCall :=
  iface.request oracle .SUBSCRIPTION_USER_STATUS (subscriptionParams external_id email)

/-- `BrazeInterface.save_user(braze_user_data)`: raw passthrough to the
user-track endpoint. -/
def BrazeInterface.save_user (iface : BrazeInterface) (oracle : HttpOracle)
    (braze_user_data : PyVal) : Except PyErr (Option PyVal) × List HttpCall :=
  iface.request oracle .USERS_TRACK braze_user_data

/-!
## Adapter (`Braze`)
-/

/-- Lift of the newsletter-registry lookup `vendor_id_to_slug` to embedded
values: looking a non-string key up in the string-keyed registry finds
nothing. -/
def vendorIdToSlugV (vendor_id_to_slug : String → Option String) : PyVal → Option String
  | .str s => vendor_id_to_slug s
  | _ => Option.none

/-- The list comprehension
`[s["id"] for s in subscription_groups if s["status"] == "Subscribed"]`:
for each group the status is subscripted, compared to `"Subscribed"`, and
the id subscripted for the kept groups, in order. -/
def subscribedIds : List PyVal → Except PyErr (List PyVal)
  | [] => .ok []
  | g :: gs =>
      match g.getItem "status" with
      | .error e => .error e
      | .ok st =>
          if PyVal.beq st (.str "Subscribed") then
            match g.getItem "id" with
            | .error e => .error e
            | .ok i =>
                match subscribedIds gs with
                | .error e => .error e
                | .ok rest => .ok (i :: rest)
          else subscribedIds gs

/-- Python `filter(None, slugs)` over lookup results: keeps exactly the
truthy values, i.e. present, non-empty slugs. -/
def filterTruthySlugs : List (Option String) → List String
  | [] => []
  | some s :: rest =>
      if s ≠ "" then s :: filterTruthySlugs rest else filterTruthySlugs rest
  | Option.none :: rest => filterTruthySlugs rest

/-- `Braze.from_vendor(braze_user_data, subscription_groups)`: converts
Braze-formatted data to Basket-formatted data.  `vendor_id_to_slug` is the
newsletter-registry collaborator. -/
def Braze.from_vendor (vendor_id_to_slug : String → Option String)
    (braze_user_data : PyVal) (subscription_groups : PyVal) :
    Except PyErr PyVal :=
  match braze_user_data with
  | .dict bd =>
    let caV := PyDict.getDflt bd "custom_attributes" (.dict [])
    match caV.getAttrDflt "user_attributes_v1" (.list [.dict []]) with
    | .error e => .error e
    | .ok uavV =>
      match uavV.itemZero with
      | .error e => .error e
      | .ok uaV =>
      match uaV, subscription_groups with
      | .dict ua, .list gs =>
        match subscribedIds gs with
        | .error e => .error e
        | .ok ids =>
          let slugs := filterTruthySlugs (ids.map (vendorIdToSlugV vendor_id_to_slug))
          match (PyVal.dict bd).getItem "email" with
          | .error e => .error e
          | .ok emailV =>
          match (PyVal.dict bd).getItem "external_id" with
          | .error e => .error e
          | .ok extidV =>
          match (PyVal.dict bd).getItem "braze_id" with
          | .error e => .error e
          | .ok bidV =>
          let countryV :=
            if (PyDict.getN bd "country").truthy then PyDict.getN bd "country"
            else PyDict.getN ua "mailing_country"
          let langV :=
            if (PyDict.getN bd "language").truthy then PyDict.getN bd "language"
            else PyDict.getDflt ua "email_lang" (.str "en")
          .ok (.dict
            [("email", emailV),
             ("email_id", extidV),
             ("id", bidV),
             ("first_name", PyDict.getN bd "first_name"),
             ("last_name", PyDict.getN bd "last_name"),
             ("country", countryV),
             ("lang", langV),
             ("newsletters", .list (slugs.map .str)),
             ("created_date", PyDict.getN ua "created_at"),
             ("last_modified_date", PyDict.getN ua "updated_at"),
             ("optin", .bool (PyVal.beq (PyDict.getN bd "email_subscribe") (.str "opted_in"))),
             ("optout", .bool (PyVal.beq (PyDict.getN bd "email_subscribe") (.str "unsubscribed"))),
             ("token", PyDict.getN ua "basket_token"),
             ("fxa_service", PyDict.getN ua "fxa_first_service"),
             ("fxa_lang", PyDict.getN ua "fxa_lang"),
             ("fxa_primary_email", PyDict.getN ua "fxa_primary_email"),
             ("fxa_create_date",
              if (PyDict.getN ua "has_fxa").truthy then PyDict.getN ua "fxa_created_at"
              else .none)])
      | .dict _, _ => .error (.typeError "object is not iterable")
      | _, _ => .error (.attributeError "get")
  | _ => .error (.attributeError "get")

/-- `Braze.to_vendor(basket_user_data, update_data, custom_attributes,
events)`.  `slug_to_vendor_id` is the newsletter-registry collaborator and
`now` the frozen `timezone.now().isoformat()` value.  Mirrors the source
exactly, including the unguarded `update_data.get("newsletters")` attribute
access, which raises `AttributeError` when `update_data` is `None`. -/
def tvSubscriptionGroups (slug_to_vendor_id : String → Option String)
    (ud : PyDict) : List PyVal :=
  match PyDict.getN ud "newsletters" with
  | .dict entries =>
      entries.filterMap (fun kv =>
        let vendor_id := slug_to_vendor_id kv.1
        if is_valid_uuid vendor_id then
          some (PyVal.dict
            [("subscription_group_id", .str (vendor_id.getD "")),
             ("subscription_state",
              .str (if kv.2.truthy then "subscribed" else "unsubscribed"))])
        else Option.none)
  | _ => []

/-- The `user_attributes` dict of `to_vendor` before the billable-field
conditionals (source lines 389–411). -/
def tvUserAttributes (now : String) (updated_user_data : PyDict)
    (country language : PyVal) (subscription_groups : List PyVal) : PyDict :=
  [("external_id", PyDict.getN updated_user_data "email_id"),
   ("email", PyDict.getN updated_user_data "email"),
   ("update_timestamp", .str now),
   ("_update_existing_only", .bool true),
   ("email_subscribe",
    .str (if (PyDict.getN updated_user_data "optin").truthy then "opted_in"
          else if (PyDict.getN updated_user_data "optout").truthy then "unsubscribed"
          else "subscribed")),
   ("subscription_groups", .list subscription_groups),
   ("user_attributes_v1",
    .list [.dict
      [("basket_token", PyDict.getN updated_user_data "token"),
       ("created_at",
        .dict [("$time", PyDict.getDflt updated_user_data "created_date" (.str now))]),
       ("email_lang", language),
       ("mailing_country", country),
       ("updated_at", .dict [("$time", .str now)]),
       ("has_fxa", .bool (PyDict.getN updated_user_data "fxa_create_date").truthy),
       ("fxa_created_at", PyDict.getN updated_user_data "fxa_create_date"),
       ("fxa_first_service", PyDict.getN updated_user_data "fxa_service"),
       ("fxa_lang", PyDict.getN updated_user_data "fxa_lang"),
       ("fxa_primary_email", PyDict.getN updated_user_data "fxa_primary_email")]])]

/-- The billable-field conditionals of `to_vendor` (source lines 413–421):
country, language, first and last name are set only when the candidate value
`!=` the existing record's value under the same-named key. -/
def tvBillables (existing_user_data updated_user_data : PyDict)
    (country language : PyVal) (user_attributes : PyDict) : PyDict :=
  let ua :=
    if !PyVal.beq country (PyDict.getN existing_user_data "country") then
      PyDict.set user_attributes "country" country
    else user_attributes
  let ua :=
    if !PyVal.beq language (PyDict.getN existing_user_data "language") then
      PyDict.set ua "language" language
    else ua
  let first_name := PyDict.getN updated_user_data "first_name"
  let ua :=
    if !PyVal.beq first_name (PyDict.getN existing_user_data "first_name") then
      PyDict.set ua "first_name" first_name
    else ua
  let last_name := PyDict.getN updated_user_data "last_name"
  if !PyVal.beq last_name (PyDict.getN existing_user_data "last_name") then
    PyDict.set ua "last_name" last_name
  else ua

def Braze.to_vendor (slug_to_vendor_id : String → Option String) (now : String)
    (basket_user_data update_data custom_attributes : Option PyDict)
    (events : Option PyVal) : Except PyErr PyVal :=
  let existing_user_data := basket_user_data.getD []
  let updated_user_data := PyDict.merge existing_user_data (update_data.getD [])
  let country := process_country (PyDict.getN updated_user_data "country")
  let language := process_lang (PyDict.getN updated_user_data "lang")
  match update_data with
  | Option.none => .error (.attributeError "get")
  | some ud =>
    let subscription_groups := tvSubscriptionGroups slug_to_vendor_id ud
    let user_attributes :=
      tvBillables existing_user_data updated_user_data country language
        (tvUserAttributes now updated_user_data country language subscription_groups)
    let merged := PyDict.merge user_attributes (custom_attributes.getD [])
    let braze_data : PyDict := [("attributes", .list [.dict merged])]
    let braze_data :=
      match events with
      | some ev => if ev.truthy then PyDict.set braze_data "events" ev else braze_data
      | Option.none => braze_data
    .ok (.dict braze_data)

/-- The fixed field allow-list `Braze.get` passes to `export_users`. -/
def exportFields : PyVal :=
  .list (["braze_id", "country", "created_at", "custom_attributes", "email",
          "email_subscribe", "external_id", "first_name", "language",
          "last_name"].map .str)

/-- `sub_response.get("users", [{}])[0].get("subscription_groups", [])`. -/
def subscriptionGroupsOf (sresp : PyVal) : Except PyErr PyVal :=
  match sresp.getAttrDflt "users" (.list [.dict []]) with
  | .error e => .error e
  | .ok w =>
      match w.itemZero with
      | .error e => .error e
      | .ok w0 => w0.getAttrDflt "subscription_groups" (.list [])

/-- `Braze.get(email=email)` (the adapter read path used by `delete`):
export the profile, treat an empty `users` list as a normal absent result,
otherwise fetch the subscription groups and apply `from_vendor`. -/
def Braze.getByEmail (vendor_id_to_slug : String → Option String)
    (iface : BrazeInterface) (oracle : HttpOracle) (email : String) :
    Except PyErr (Option PyVal) × List HttpCall :=
  let r1 := iface.export_users oracle email (some exportFields) Option.none
  match r1.1 with
  | .error e => (.error e, r1.2)
  | .ok Option.none => (.error (.typeError "object is not subscriptable"), r1.2)
  | .ok (some resp) =>
      match resp.getItem "users" with
      | .error e => (.error e, r1.2)
      | .ok users =>
          if !users.truthy then (.ok Option.none, r1.2)
          else
            match users.itemZero with
            | .error e => (.error e, r1.2)
            | .ok user_data =>
                match user_data.getItem "external_id" with
                | .error e => (.error e, r1.2)
                | .ok extid =>
                    let r2 := iface.get_user_subscriptions oracle extid email
                    match r2.1 with
                    | .error e => (.error e, r1.2 ++ r2.2)
                    | .ok Option.none => (.error (.attributeError "get"), r1.2 ++ r2.2)
                    | .ok (some sresp) =>
                        match subscriptionGroupsOf sresp with
                        | .error e => (.error e, r1.2 ++ r2.2)
                        | .ok subs =>
                            match Braze.from_vendor vendor_id_to_slug user_data subs with
                            | .error e => (.error e, r1.2 ++ r2.2)
                            | .ok localRec => (.ok (some localRec), r1.2 ++ r2.2)

/-- `Braze.delete(email)`: `get` first; a falsy result raises
`BrazeUserNotFoundByEmailError`; otherwise issue the vendor delete and
return the previously fetched record in a single-element list. -/
def Braze.delete (vendor_id_to_slug : String → Option String)
    (iface : BrazeInterface) (oracle : HttpOracle) (email : String) :
    Except PyErr PyVal × List HttpCall :=
  let g := Braze.getByEmail vendor_id_to_slug iface oracle email
  match g.1 with
  | .error e => (.error e, g.2)
  | .ok Option.none => (.error .brazeUserNotFoundByEmail, g.2)
  | .ok (some data) =>
      if !data.truthy then (.error .brazeUserNotFoundByEmail, g.2)
      else
        let d2 := iface.delete_user oracle email
        match d2.1 with
        | .error e => (.error e, g.2 ++ d2.2)
        | .ok _ => (.ok (.list [data]), g.2 ++ d2.2)

/-- `Braze.add(data)`: force `_update_existing_only = False`; when `data`
has no `email_id` the source evaluates `data.email` — attribute access on a
dict — which raises `AttributeError` before any vendor call; otherwise it
saves the `to_vendor` payload.  `Braze.add` itself returns `None`. -/
def Braze.add (slug_to_vendor_id : String → Option String) (now : String)
    (iface : BrazeInterface) (oracle : HttpOracle) (data : PyDict) :
    Except PyErr (Option PyVal) × List HttpCall :=
  let custom_attributes : PyDict := [("_update_existing_only", .bool false)]
  if !(PyDict.getN data "email_id").truthy then
    (.error (.attributeError "email"), [])
  else
    match Braze.to_vendor slug_to_vendor_id now Option.none (some data)
        (some custom_attributes) Option.none with
    | .error e => (.error e, [])
    | .ok payload =>
        let s := iface.save_user oracle payload
        match s.1 with
        | .error e => (.error e, s.2)
        | .ok _ => (.ok Option.none, s.2)

/-!
## Spec-side definitions and helpers for the theorems
-/

/-- Written from the spec's words (for the refinement claim about
`newsletters`): "filter subscription_groups to status `\"Subscribed\"`, map
each id through vendor-id-to-slug lookup, drop unmapped ids, preserve order
of vendor response". -/
def newslettersSpec (vendor_id_to_slug : String → Option String)
    (groups : List (String × String)) : List String :=
  (groups.filter (fun g => g.2 = "Subscribed")).filterMap
    (fun g => vendor_id_to_slug g.1)

/-- Vendor subscription-group dicts `{"id": ..., "status": ...}` built from
`(id, status)` pairs. -/
def toGroupDicts (groups : List (String × String)) : List PyVal :=
  groups.map (fun g => .dict [("id", .str g.1), ("status", .str g.2)])

/-- A vendor user record as described in the spec's data model (§3):
top-level identification and billable fields plus the nested
`user_attributes_v1` bag. -/
structure VendorRecord where
  email : PyVal
  external_id : PyVal
  braze_id : PyVal
  first_name : PyVal
  last_name : PyVal
  country : PyVal
  language : PyVal
  email_subscribe : String
  user_attributes : PyDict

/-- The vendor record as the dict Braze's export returns. -/
def VendorRecord.toPy (r : VendorRecord) : PyVal :=
  .dict
    [("email", r.email),
     ("external_id", r.external_id),
     ("braze_id", r.braze_id),
     ("first_name", r.first_name),
     ("last_name", r.last_name),
     ("country", r.country),
     ("language", r.language),
     ("email_subscribe", .str r.email_subscribe),
     ("custom_attributes", .dict [("user_attributes_v1", .list [.dict r.user_attributes])])]

/-- The single attributes object of a built vendor payload
(`payload["attributes"][0]`); `[]` when the payload has another shape. -/
def attributesHead : PyVal → PyDict
  | .dict d =>
      match PyDict.get d "attributes" with
      | some (.list [.dict a]) => a
      | _ => []
  | _ => []

/-- The attributes object of a successfully built payload. -/
def attributesOf : Except PyErr PyVal → PyDict
  | .ok p => attributesHead p
  | .error _ => []

def newsletterSlugsCode (vendor_id_to_slug : String → Option String)
    (G : List (String × String)) : List String :=
  filterTruthySlugs
    (((G.filter (fun g => g.2 = "Subscribed")).map (fun g => g.1)).map vendor_id_to_slug)

/-- The Basket record `from_vendor` produces for a well-formed vendor
record and (id, status) subscription pairs. -/
def basketOf (vendor_id_to_slug : String → Option String)
    (r : VendorRecord) (G : List (String × String)) : PyDict :=
  [("email", r.email),
   ("email_id", r.external_id),
   ("id", r.braze_id),
   ("first_name", r.first_name),
   ("last_name", r.last_name),
   ("country",
    if r.country.truthy then r.country
    else PyDict.getN r.user_attributes "mailing_country"),
   ("lang",
    if r.language.truthy then r.language
    else PyDict.getDflt r.user_attributes "email_lang" (.str "en")),
   ("newsletters", .list ((newsletterSlugsCode vendor_id_to_slug G).map .str)),
   ("created_date", PyDict.getN r.user_attributes "created_at"),
   ("last_modified_date", PyDict.getN r.user_attributes "updated_at"),
   ("optin", .bool (r.email_subscribe == "opted_in")),
   ("optout", .bool (r.email_subscribe == "unsubscribed")),
   ("token", PyDict.getN r.user_attributes "basket_token"),
   ("fxa_service", PyDict.getN r.user_attributes "fxa_first_service"),
   ("fxa_lang", PyDict.getN r.user_attributes "fxa_lang"),
   ("fxa_primary_email", PyDict.getN r.user_attributes "fxa_primary_email"),
   ("fxa_create_date",
    if (PyDict.getN r.user_attributes "has_fxa").truthy
    then PyDict.getN r.user_attributes "fxa_created_at" else .none)]

def roundTrip (vendor_id_to_slug slug_to_vendor_id : String → Option String)
    (now : String) (R G : PyVal) : Except PyErr PyVal :=
  match Braze.from_vendor vendor_id_to_slug R G with
  | .error e => .error e
  | .ok (.dict d) =>
      Braze.to_vendor slug_to_vendor_id now Option.none (some d) Option.none Option.none
  | .ok _ => .error (.typeError "not a dict")

/-- The value `track_user` binds to `basket_token` after popping `email_id`:
because the pops mutate `user_data`, a dict left empty by the first pop makes
`user_data and user_data.pop(...)` evaluate to that empty dict. -/
def trackTokenLeftover (d : PyDict) : PyVal :=
  let d1 := PyDict.eraseKey d "email_id"
  if d1.isEmpty then .dict [] else (PyDict.popDflt d1 "basket_token" .none).1

/-- A benign HTTP environment for witnesses. -/
def oracleW : HttpOracle := fun _ => { status := 200, text := "{}", jsonBody := .dict [] }

/-- An active transport client used for concrete evaluations. -/
def iface304 : BrazeInterface :=
  { api_url := "http://test.com", api_key := "key", active := true }

def oracle304 : HttpOracle :=
  fun _ => { status := 304, text := "not modified", jsonBody := .str "cached" }

def oracle404 : HttpOracle :=
  fun _ => { status := 404, text := "nf", jsonBody := .dict [] }

/-- A concrete newsletter registry (the one used by the repo's tests):
vendor id to slug. -/
def vendorToSlugW : String → Option String := fun i =>
  if i = "234c9b4a-1785-4cd5-b839-5dbc134982eb" then some "foo-news"
  else if i = "78fe6671-9f94-48bd-aaf3-7e873536c3e6" then some "bar-news"
  else Option.none

/-- The inverse direction of the concrete registry: slug to vendor id. -/
def slugToVendorW : String → Option String := fun s =>
  if s = "foo-news" then some "234c9b4a-1785-4cd5-b839-5dbc134982eb"
  else if s = "bar-news" then some "78fe6671-9f94-48bd-aaf3-7e873536c3e6"
  else Option.none

/-- A concrete vendor record (mirroring the repo's test fixture). -/
def vendorRecordW : VendorRecord :=
  { email := .str "test@example.com", external_id := .str "123",
    braze_id := .str "456", first_name := .str "Test", last_name := .str "User",
    country := .str "US", language := .str "en", email_subscribe := "opted_in",
    user_attributes :=
      [("mailing_country", .str "us"), ("email_lang", .str "en"),
       ("created_at", .str "2022-01-01"), ("updated_at", .str "2022-02-01"),
       ("basket_token", .str "abc"), ("has_fxa", .bool true)] }

/-- One subscribed group whose vendor id resolves to `"foo-news"`. -/
def groupsW : List (String × String) :=
  [("234c9b4a-1785-4cd5-b839-5dbc134982eb", "Subscribed")]

/-- Oracle: vendor knows no user (empty export). -/
def oracleEmpty : HttpOracle := fun _ =>
  { status := 200, text := "{}", jsonBody := .dict [("users", .list [])] }

/-- Oracle: a full vendor world holding `vendorRecordW` with `groupsW`. -/
def oracleFull : HttpOracle := fun ep =>
  match ep with
  | .USERS_EXPORT_IDS =>
      { status := 200, text := "{}",
        jsonBody := .dict [("users", .list [vendorRecordW.toPy])] }
  | .SUBSCRIPTION_USER_STATUS =>
      { status := 200, text := "{}",
        jsonBody := .dict [("users",
          .list [.dict [("subscription_groups", .list (toGroupDicts groupsW))]])] }
  | _ => { status := 200, text := "{}", jsonBody := .dict [] }

/-!
## Dictionary lemmas
-/

theorem PyDict.get_set_ne (d : PyDict) (k key : String) (v : PyVal) (h : k ≠ key) :
    PyDict.get (PyDict.set d k v) key = PyDict.get d key := by
  induction d with
  | nil => simp [PyDict.set, PyDict.get, h]
  | cons p rest ih =>
      obtain ⟨k1, w⟩ := p
      by_cases hk : k1 = k
      · subst hk
        simp [PyDict.set, PyDict.get, h]
      · simp [PyDict.set, hk, PyDict.get, ih]

theorem PyDict.get_set_self (d : PyDict) (k : String) (v : PyVal) :
    PyDict.get (PyDict.set d k v) k = some v := by
  induction d with
  | nil => simp [PyDict.set, PyDict.get]
  | cons p rest ih =>
      obtain ⟨k1, w⟩ := p
      by_cases hk : k1 = k
      · subst hk
        simp [PyDict.set, PyDict.get]
      · simp [PyDict.set, hk, PyDict.get, ih]

theorem PyDict.get_merge_ne (d2 : PyDict) (d1 : PyDict) (key : String)
    (h : ∀ q ∈ d2, q.1 ≠ key) :
    PyDict.get (PyDict.merge d1 d2) key = PyDict.get d1 key := by
  induction d2 generalizing d1 with
  | nil => rfl
  | cons q rest ih =>
      have h1 : q.1 ≠ key := h q (by simp)
      have h2 : ∀ p ∈ rest, p.1 ≠ key := fun p hp => h p (by simp [hp])
      calc PyDict.get (PyDict.merge d1 (q :: rest)) key
          = PyDict.get (PyDict.merge (PyDict.set d1 q.1 q.2) rest) key := rfl
        _ = PyDict.get (PyDict.set d1 q.1 q.2) key := ih _ h2
        _ = PyDict.get d1 key := PyDict.get_set_ne _ _ _ _ h1

theorem PyDict.get_eraseKey_ne (d : PyDict) (k key : String) (h : k ≠ key) :
    PyDict.get (PyDict.eraseKey d k) key = PyDict.get d key := by
  induction d with
  | nil => rfl
  | cons p rest ih =>
      obtain ⟨k1, w⟩ := p
      by_cases hk : k1 = k
      · subst hk
        simp [PyDict.eraseKey, PyDict.get, h]
      · simp [PyDict.eraseKey, hk, PyDict.get, ih]

theorem PyDict.get_some_ne_nil {d : PyDict} {key : String} {v : PyVal}
    (h : PyDict.get d key = some v) : d ≠ [] := by
  intro hnil
  subst hnil
  simp [PyDict.get] at h

theorem PyDict.get_ite_set_ne (c : Prop) [Decidable c] (d : PyDict)
    (k : String) (v : PyVal) (key : String) (h : k ≠ key) :
    PyDict.get (if c then PyDict.set d k v else d) key = PyDict.get d key := by
  split
  · exact PyDict.get_set_ne _ _ _ _ h
  · rfl

theorem subscribedIds_toGroupDicts (G : List (String × String)) :
    subscribedIds (toGroupDicts G)
      = .ok ((G.filter (fun g => g.2 = "Subscribed")).map (fun g => PyVal.str g.1)) := by
  induction G with
  | nil => rfl
  | cons g rest ih =>
      simp only [toGroupDicts] at ih
      by_cases hs : g.2 = "Subscribed"
      · simp [toGroupDicts, subscribedIds, PyVal.getItem, PyDict.get, PyVal.beq, hs,
              List.filter_cons, ih]
      · simp [toGroupDicts, subscribedIds, PyVal.getItem, PyDict.get, PyVal.beq, hs,
              List.filter_cons, ih]

theorem filterTruthySlugs_map (lookup : String → Option String)
    (hne : ∀ i s, lookup i = some s → s ≠ "") (L : List String) :
    filterTruthySlugs (L.map lookup) = L.filterMap lookup := by
  induction L with
  | nil => rfl
  | cons i rest ih =>
      cases hl : lookup i with
      | none => simp [filterTruthySlugs, hl, ih, List.filterMap_cons]
      | some s =>
          have hs := hne i s hl
          simp [filterTruthySlugs, hl, hs, ih, List.filterMap_cons]

theorem vendorIdToSlugV_map_str (lookup : String → Option String) (L : List String) :
    (L.map PyVal.str).map (vendorIdToSlugV lookup) = L.map lookup := by
  simp only [List.map_map]
  exact List.map_congr_left (fun a _ => rfl)

theorem from_vendor_toPy (vendor_id_to_slug : String → Option String)
    (r : VendorRecord) (G : List (String × String)) :
    Braze.from_vendor vendor_id_to_slug r.toPy (.list (toGroupDicts G))
      = .ok (.dict (basketOf vendor_id_to_slug r G)) := by
  simp [Braze.from_vendor, VendorRecord.toPy, basketOf, newsletterSlugsCode,
        subscribedIds_toGroupDicts, vendorIdToSlugV_map_str,
        PyVal.getAttrDflt, PyVal.itemZero, PyVal.getItem,
        PyDict.getDflt, PyDict.getN, PyDict.get, PyVal.beq, List.map_map]
  congr 2

theorem get_tvBillables_ne (ex up : PyDict) (c l : PyVal) (ua : PyDict) (key : String)
    (h1 : key ≠ "country") (h2 : key ≠ "language") (h3 : key ≠ "first_name")
    (h4 : key ≠ "last_name") :
    PyDict.get (tvBillables ex up c l ua) key = PyDict.get ua key := by
  unfold tvBillables
  rw [PyDict.get_ite_set_ne _ _ _ _ _ (Ne.symm h4),
      PyDict.get_ite_set_ne _ _ _ _ _ (Ne.symm h3),
      PyDict.get_ite_set_ne _ _ _ _ _ (Ne.symm h2),
      PyDict.get_ite_set_ne _ _ _ _ _ (Ne.symm h1)]

theorem attributesOf_to_vendor_some (sv : String → Option String) (now : String)
    (e : Option PyDict) (ud : PyDict) (c : Option PyDict) (ev : Option PyVal) :
    attributesOf (Braze.to_vendor sv now e (some ud) c ev)
      = PyDict.merge
          (tvBillables (e.getD []) (PyDict.merge (e.getD []) ud)
            (process_country (PyDict.getN (PyDict.merge (e.getD []) ud) "country"))
            (process_lang (PyDict.getN (PyDict.merge (e.getD []) ud) "lang"))
            (tvUserAttributes now (PyDict.merge (e.getD []) ud)
              (process_country (PyDict.getN (PyDict.merge (e.getD []) ud) "country"))
              (process_lang (PyDict.getN (PyDict.merge (e.getD []) ud) "lang"))
              (tvSubscriptionGroups sv ud)))
          (c.getD []) := by
  cases ev with
  | none => rfl
  | some e2 =>
      simp only [Braze.to_vendor]
      split <;> rfl

theorem PyDict.merge_nil_right (d : PyDict) : PyDict.merge d [] = d := rfl

theorem merge_nil_basketOf (v : String → Option String) (r : VendorRecord)
    (G : List (String × String)) :
    PyDict.merge [] (basketOf v r G) = basketOf v r G := by
  simp [basketOf, PyDict.merge, PyDict.set]

theorem getN_basketOf_optin (v : String → Option String) (r : VendorRecord)
    (G : List (String × String)) :
    PyDict.getN (basketOf v r G) "optin" = .bool (r.email_subscribe == "opted_in") := rfl

theorem getN_basketOf_optout (v : String → Option String) (r : VendorRecord)
    (G : List (String × String)) :
    PyDict.getN (basketOf v r G) "optout" = .bool (r.email_subscribe == "unsubscribed") := rfl

theorem tvSubscriptionGroups_basketOf (sv v : String → Option String)
    (r : VendorRecord) (G : List (String × String)) :
    tvSubscriptionGroups sv (basketOf v r G) = [] := rfl

theorem get_tvUserAttributes_email_subscribe (now : String) (u : PyDict)
    (c l : PyVal) (sg : List PyVal) :
    PyDict.get (tvUserAttributes now u c l sg) "email_subscribe"
      = some (.str (if (PyDict.getN u "optin").truthy then "opted_in"
                    else if (PyDict.getN u "optout").truthy then "unsubscribed"
                    else "subscribed")) := rfl

theorem get_tvUserAttributes_subscription_groups (now : String) (u : PyDict)
    (c l : PyVal) (sg : List PyVal) :
    PyDict.get (tvUserAttributes now u c l sg) "subscription_groups"
      = some (.list sg) := rfl

theorem get_tvUserAttributes_update_existing_only (now : String) (u : PyDict)
    (c l : PyVal) (sg : List PyVal) :
    PyDict.get (tvUserAttributes now u c l sg) "_update_existing_only"
      = some (.bool true) := rfl

/-- C1: evaluating `to_vendor` at the claim's own example — existing record
`{"country": "US", "lang": "en"}` and update `{"country": "US"}` — shows the
code emitting `country: "us"` (the normalized merged value differs from the
raw stored `"US"`) and `language: "en"` (the code diffs against the key
`"language"`, which local records do not carry — they store `"lang"`), while
first and last name are suppressed.  The claim, the spec and the repo's own
test expect `country` and `language` to be omitted here, so the code
contradicts its own test suite. -/
theorem C1_billable_fields_emitted_at_claim_example :
    PyDict.get (attributesOf (Braze.to_vendor (fun _ => Option.none) "2024-01-01T00:00:00"
        (some [("country", .str "US"), ("lang", .str "en")])
        (some [("country", .str "US")]) Option.none Option.none)) "country"
      = some (.str "us") ∧
    PyDict.get (attributesOf (Braze.to_vendor (fun _ => Option.none) "2024-01-01T00:00:00"
        (some [("country", .str "US"), ("lang", .str "en")])
        (some [("country", .str "US")]) Option.none Option.none)) "language"
      = some (.str "en") ∧
    PyDict.hasKey (attributesOf (Braze.to_vendor (fun _ => Option.none) "2024-01-01T00:00:00"
        (some [("country", .str "US"), ("lang", .str "en")])
        (some [("country", .str "US")]) Option.none Option.none)) "first_name"
      = false ∧
    PyDict.hasKey (attributesOf (Braze.to_vendor (fun _ => Option.none) "2024-01-01T00:00:00"
        (some [("country", .str "US"), ("lang", .str "en")])
        (some [("country", .str "US")]) Option.none Option.none)) "last_name"
      = false :=
  ⟨rfl, rfl, rfl, rfl⟩

/-- C2: `to_vendor` is not idempotent on unchanged input because it never
succeeds there: for every existing record, calling it with no update record
raises `AttributeError` at `update_data.get("newsletters")` (line 378), even
though line 371 guards the merge with `update_data or {}` and the repo's own
tests call `to_vendor(record)` and `to_vendor(..., update_data=None)`
expecting success. -/
theorem C2_to_vendor_raises_without_update_record
    (slug_to_vendor_id : String → Option String) (now : String) (E : PyDict)
    (custom_attributes : Option PyDict) (events : Option PyVal) :
    Braze.to_vendor slug_to_vendor_id now (some E) Option.none custom_attributes events
      = .error (.attributeError "get") := rfl

/-- C3 counterexample: `track_user("a@b.com", user_data={"email_id": "X"})`
emits a `basket_token` key even though `user_data` carries none — after the
`email_id` pop empties the dict, `user_data and user_data.pop("basket_token",
None)` evaluates to the empty dict, which is stored under `basket_token`.
This contradicts the claim's "attaching an optional basket_token attribute
only when user_data also carries one". -/
theorem C3_basket_token_key_present_counterexample :
    trackUserData "2024-01-01T00:00:00" "a@b.com" Option.none (some [("email_id", .str "X")])
      = .dict [("attributes", .list [.dict
          [("email", .str "a@b.com"), ("external_id", .str "X"),
           ("basket_token", .dict [])]])] ∧
    PyDict.get [("email_id", PyVal.str "X")] "basket_token" = Option.none :=
  ⟨rfl, rfl⟩

/-- C3 amended: for every email and `user_data` carrying a non-empty
`email_id` x, `track_user` builds a single attributes object addressed by
`external_id` x with no `user_alias` block and no `_update_existing_only`
key; a `basket_token` key is always present in this branch, and it holds the
carried `basket_token` value whenever `user_data` has one. -/
theorem C3_track_user_external_id_branch (now e x : String) (d : PyDict)
    (hid : PyDict.get d "email_id" = some (.str x)) (hx : x ≠ "") :
    ∃ A : PyDict,
      trackUserData now e Option.none (some d)
        = .dict [("attributes", .list [.dict A])] ∧
      PyDict.get A "email" = some (.str e) ∧
      PyDict.get A "external_id" = some (.str x) ∧
      PyDict.hasKey A "user_alias" = false ∧
      PyDict.hasKey A "_update_existing_only" = false ∧
      PyDict.hasKey A "basket_token" = true ∧
      (∀ t, PyDict.get d "basket_token" = some t →
        PyDict.get A "basket_token" = some t) := by
  have hd : d ≠ [] := PyDict.get_some_ne_nil hid
  have hde : d.isEmpty = false := by
    cases d
    · exact absurd rfl hd
    · rfl
  have hxs : PyVal.truthy (.str x) = true := by
    simp [PyVal.truthy, hx]
  have hmain : trackUserData now e Option.none (some d)
      = .dict [("attributes", .list [.dict
          [("email", .str e), ("external_id", .str x),
           ("basket_token", trackTokenLeftover d)]])] := by
    unfold trackUserData trackTokenLeftover
    simp [hde, PyDict.popDflt, hid, hxs]
  refine ⟨_, hmain, rfl, rfl, rfl, rfl, rfl, ?_⟩
  intro t ht
  have h1 : PyDict.get (PyDict.eraseKey d "email_id") "basket_token" = some t := by
    rw [PyDict.get_eraseKey_ne _ _ _ (by decide)]
    exact ht
  have h2 : (PyDict.eraseKey d "email_id").isEmpty = false := by
    have := PyDict.get_some_ne_nil h1
    cases hc : PyDict.eraseKey d "email_id"
    · exact absurd hc this
    · rfl
  show some (trackTokenLeftover d) = some t
  unfold trackTokenLeftover
  simp [h2, PyDict.popDflt, h1]

/-- Witness for C3 at email `"a@b.com"`, `email_id` `"X"` and
`basket_token` `"tok"`. -/
theorem C3_track_user_external_id_branch_witness :
    ∃ A : PyDict,
      trackUserData "2024-01-01T00:00:00" "a@b.com" Option.none
          (some [("email_id", .str "X"), ("basket_token", .str "tok")])
        = .dict [("attributes", .list [.dict A])] ∧
      PyDict.get A "email" = some (.str "a@b.com") ∧
      PyDict.get A "external_id" = some (.str "X") ∧
      PyDict.hasKey A "user_alias" = false ∧
      PyDict.hasKey A "_update_existing_only" = false ∧
      PyDict.hasKey A "basket_token" = true ∧
      (∀ t, PyDict.get [("email_id", PyVal.str "X"), ("basket_token", PyVal.str "tok")]
          "basket_token" = some t → PyDict.get A "basket_token" = some t) :=
  C3_track_user_external_id_branch "2024-01-01T00:00:00" "a@b.com" "X"
    [("email_id", .str "X"), ("basket_token", .str "tok")] rfl (by decide)

/-- C4: constructing the transport client with an empty API key yields
`active = false`, and on that client every operation — `track_user`,
`export_users`, `delete_user`, `send_campaign`, `get_user_subscriptions`,
`save_user` — returns the absent result (`None`) without issuing any HTTP
call and without raising. -/
theorem C4_inactive_client_is_silent_noop (base_url : String) (iface : BrazeInterface)
    (h : BrazeInterface.init base_url "" = .ok iface) :
    iface.active = false ∧
    (∀ oracle now email event ud,
      iface.track_user oracle now email event ud = (.ok Option.none, [])) ∧
    (∀ oracle email f x, iface.export_users oracle email f x = (.ok Option.none, [])) ∧
    (∀ oracle email, iface.delete_user oracle email = (.ok Option.none, [])) ∧
    (∀ oracle email cid, iface.send_campaign oracle email cid = (.ok Option.none, [])) ∧
    (∀ oracle x email,
      iface.get_user_subscriptions oracle x email = (.ok Option.none, [])) ∧
    (∀ oracle payload, iface.save_user oracle payload = (.ok Option.none, [])) := by
  have hact : iface.active = false := by
    simp only [BrazeInterface.init] at h
    split at h
    · exact absurd h (by simp)
    · cases h
      rfl
  refine ⟨hact, ?_, ?_, ?_, ?_, ?_, ?_⟩ <;>
    · intros
      simp [BrazeInterface.track_user, BrazeInterface.export_users,
            BrazeInterface.delete_user, BrazeInterface.send_campaign,
            BrazeInterface.get_user_subscriptions, BrazeInterface.save_user,
            BrazeInterface.request, hact]

/-- Witness for C4 at base url `"http://test.com"` and the empty API
key. -/
theorem C4_inactive_client_is_silent_noop_witness :
    ({ api_url := "http://test.com", api_key := "", active := false } :
        BrazeInterface).active = false ∧
    BrazeInterface.track_user
        { api_url := "http://test.com", api_key := "", active := false }
        oracleW "2024-01-01T00:00:00" "a@b.com" Option.none Option.none
      = (.ok Option.none, []) :=
  ⟨(C4_inactive_client_is_silent_noop "http://test.com" _ rfl).1,
   (C4_inactive_client_is_silent_noop "http://test.com" _ rfl).2.1 oracleW
     "2024-01-01T00:00:00" "a@b.com" Option.none Option.none⟩

/-- C5 amended: for every response with status 400–599 on any endpoint,
`_request` raises exactly the classified error for the status — 400 bad
request, 401 unauthorized, 403 forbidden, 404 not found, 429 rate limited,
500–599 vendor internal, any other 4xx the generic client error — and the
raised error carries the raw response body.  (Statuses outside 400–599 do
not raise: see the counterexample at 304.) -/
theorem C5_http_error_classification (iface : BrazeInterface) (oracle : HttpOracle)
    (ep : BrazeEndpoint) (data : PyVal) (hact : iface.active = true)
    (h1 : 400 ≤ (oracle ep).status) (h2 : (oracle ep).status ≤ 599) :
    iface.request oracle ep data
      = (.error (classifyStatus (oracle ep).status (oracle ep).text), [(ep, data)]) ∧
    (classifyStatus (oracle ep).status (oracle ep).text).message
      = some (oracle ep).text ∧
    ((oracle ep).status = 400 →
      classifyStatus (oracle ep).status (oracle ep).text
        = .brazeBadRequest (oracle ep).text) ∧
    ((oracle ep).status = 401 →
      classifyStatus (oracle ep).status (oracle ep).text
        = .brazeUnauthorized (oracle ep).text) ∧
    ((oracle ep).status = 403 →
      classifyStatus (oracle ep).status (oracle ep).text
        = .brazeForbidden (oracle ep).text) ∧
    ((oracle ep).status = 404 →
      classifyStatus (oracle ep).status (oracle ep).text
        = .brazeNotFound (oracle ep).text) ∧
    ((oracle ep).status = 429 →
      classifyStatus (oracle ep).status (oracle ep).text
        = .brazeRateLimit (oracle ep).text) ∧
    (500 ≤ (oracle ep).status →
      classifyStatus (oracle ep).status (oracle ep).text
        = .brazeInternalServer (oracle ep).text) ∧
    ((oracle ep).status ∉ ([400, 401, 403, 404, 429] : List Nat) →
      (oracle ep).status ≤ 499 →
      classifyStatus (oracle ep).status (oracle ep).text
        = .brazeClient (oracle ep).text) := by
  refine ⟨?_, ?_, ?_, ?_, ?_, ?_, ?_, ?_, ?_⟩
  · unfold BrazeInterface.request
    rw [hact]
    have hr : raiseForStatus (oracle ep).status = true := by
      simp [raiseForStatus, h1, h2]
    simp [hr]
  · unfold classifyStatus
    repeat' split
    all_goals rfl
  · intro h
    simp [classifyStatus, h]
  · intro h
    simp [classifyStatus, h]
  · intro h
    simp [classifyStatus, h]
  · intro h
    simp [classifyStatus, h]
  · intro h
    simp [classifyStatus, h]
  · intro h5
    unfold classifyStatus
    rw [if_neg (by omega), if_neg (by omega), if_neg (by omega), if_neg (by omega),
        if_neg (by omega), if_pos ⟨h5, h2⟩]
  · intro hnot h4
    simp only [List.mem_cons, List.not_mem_nil, or_false] at hnot
    push_neg at hnot
    obtain ⟨n1, n2, n3, n4, n5⟩ := hnot
    unfold classifyStatus
    rw [if_neg n1, if_neg n2, if_neg n3, if_neg n4, if_neg n5,
        if_neg (by omega)]

/-- C5 counterexample: a 304 response — non-2xx — does not raise:
`raise_for_status` only raises for 400–599, so the request layer returns
the decoded body, contradicting the claim's "for every non-2xx HTTP
response ... raises". -/
theorem C5_status_304_does_not_raise_counterexample :
    iface304.request oracle304 .USERS_TRACK (.dict [])
      = (.ok (some (.str "cached")), [(.USERS_TRACK, .dict [])]) := rfl

/-- Witness for C5: a 404 response raises the not-found error carrying
the body `"nf"`. -/
theorem C5_http_error_classification_witness :
    iface304.request oracle404 .USERS_TRACK (.dict [])
      = (.error (.brazeNotFound "nf"), [(.USERS_TRACK, .dict [])]) := by
  have h := C5_http_error_classification iface304 oracle404 .USERS_TRACK (.dict [])
    rfl (by decide) (by decide)
  have h404 := h.2.2.2.2.2.1 rfl
  rw [h.1, h404]
  rfl

/-- C8: construction succeeds exactly when the parsed base URL has both a
scheme and a netloc; when either is missing it fails with
`ValueError("Invalid base_url")` (the spec's `InvalidConfiguration`). -/
theorem C8_init_requires_scheme_and_host (url key : String) :
    (((urlparseSN url).1 ≠ "" ∧ (urlparseSN url).2 ≠ "") →
        ∃ iface, BrazeInterface.init url key = .ok iface) ∧
    (((urlparseSN url).1 = "" ∨ (urlparseSN url).2 = "") →
        BrazeInterface.init url key = .error (.valueError "Invalid base_url")) := by
  constructor
  · intro h
    refine ⟨{ api_url := urlunparseSN (urlparseSN url).1 (urlparseSN url).2,
              api_key := key, active := key ≠ "" }, ?_⟩
    simp [BrazeInterface.init, h.1, h.2]
  · intro h
    rcases h with h | h <;> simp [BrazeInterface.init, h]

/-- Witness for C8: `"https://rest.braze.com"` constructs, while
`"rest.braze.com"` (no scheme) and `"https://"` (no host) fail. -/
theorem C8_init_requires_scheme_and_host_witness :
    (∃ iface, BrazeInterface.init "https://rest.braze.com" "key" = .ok iface) ∧
    BrazeInterface.init "rest.braze.com" "key"
      = .error (.valueError "Invalid base_url") ∧
    BrazeInterface.init "https://" "key"
      = .error (.valueError "Invalid base_url") :=
  ⟨(C8_init_requires_scheme_and_host "https://rest.braze.com" "key").1 (by decide),
   (C8_init_requires_scheme_and_host "rest.braze.com" "key").2 (by decide),
   (C8_init_requires_scheme_and_host "https://" "key").2 (by decide)⟩

theorem mem_request_calls {iface : BrazeInterface} {oracle : HttpOracle}
    {ep : BrazeEndpoint} {data : PyVal} {c : HttpCall}
    (h : c ∈ (BrazeInterface.request iface oracle ep data).2) : c.1 = ep := by
  unfold BrazeInterface.request at h
  split at h
  · simp at h
  · split at h <;>
      · simp at h
        subst h
        rfl

theorem request_calls_active (iface : BrazeInterface) (oracle : HttpOracle)
    (ep : BrazeEndpoint) (data : PyVal) (h : iface.active = true) :
    (BrazeInterface.request iface oracle ep data).2 = [(ep, data)] := by
  simp [BrazeInterface.request, h]
  split <;> rfl

theorem getByEmail_calls_shape (v : String → Option String) (iface : BrazeInterface)
    (oracle : HttpOracle) (email : String) :
    ∃ p : PyVal,
      (Braze.getByEmail v iface oracle email).2
          = (iface.request oracle BrazeEndpoint.USERS_EXPORT_IDS
              (exportUsersData email (some exportFields) Option.none)).2 ∨
      (Braze.getByEmail v iface oracle email).2
          = (iface.request oracle BrazeEndpoint.USERS_EXPORT_IDS
              (exportUsersData email (some exportFields) Option.none)).2
            ++ (iface.request oracle BrazeEndpoint.SUBSCRIPTION_USER_STATUS p).2 := by
  unfold Braze.getByEmail BrazeInterface.export_users
    BrazeInterface.get_user_subscriptions
  try dsimp only
  rcases hr1 : iface.request oracle BrazeEndpoint.USERS_EXPORT_IDS
      (exportUsersData email (some exportFields) Option.none) with ⟨res1, calls1⟩
  try dsimp only
  rcases res1 with e | o
  · exact ⟨.none, Or.inl rfl⟩
  · rcases o with _ | resp
    · exact ⟨.none, Or.inl rfl⟩
    · try dsimp only
      cases hgi : resp.getItem "users" with
      | error e => exact ⟨.none, Or.inl rfl⟩
      | ok users =>
        try dsimp only
        cases htr : users.truthy with
        | false => exact ⟨.none, Or.inl rfl⟩
        | true =>
          try dsimp only
          cases hiz : users.itemZero with
          | error e => exact ⟨.none, Or.inl rfl⟩
          | ok user_data =>
            try dsimp only
            cases hei : user_data.getItem "external_id" with
            | error e => exact ⟨.none, Or.inl rfl⟩
            | ok extid =>
              try dsimp only
              rcases hr2 : iface.request oracle BrazeEndpoint.SUBSCRIPTION_USER_STATUS
                  (subscriptionParams extid email) with ⟨res2, calls2⟩
              refine ⟨subscriptionParams extid email, Or.inr ?_⟩
              rw [hr2]
              try dsimp only
              rcases res2 with e | o2
              · rfl
              · rcases o2 with _ | sresp
                · rfl
                · try dsimp only
                  cases hsg : subscriptionGroupsOf sresp with
                  | error e => rfl
                  | ok subs =>
                    try dsimp only
                    cases hfv : Braze.from_vendor v user_data subs with
                    | error e => rfl
                    | ok localRec => rfl

theorem getByEmail_calls (v : String → Option String) (iface : BrazeInterface)
    (oracle : HttpOracle) (email : String) :
    ∀ c ∈ (Braze.getByEmail v iface oracle email).2,
      c.1 = BrazeEndpoint.USERS_EXPORT_IDS ∨
      c.1 = BrazeEndpoint.SUBSCRIPTION_USER_STATUS := by
  intro c hc
  obtain ⟨p, hshape | hshape⟩ := getByEmail_calls_shape v iface oracle email
  · rw [hshape] at hc
    exact Or.inl (mem_request_calls hc)
  · rw [hshape] at hc
    rcases List.mem_append.mp hc with h | h
    · exact Or.inl (mem_request_calls h)
    · exact Or.inr (mem_request_calls h)

theorem active_of_getByEmail_ok_some (v : String → Option String)
    (iface : BrazeInterface) (oracle : HttpOracle) (email : String) (rec : PyVal)
    (h : (Braze.getByEmail v iface oracle email).1 = .ok (some rec)) :
    iface.active = true := by
  by_contra hn
  have hact : iface.active = false := by
    cases hb : iface.active
    · rfl
    · exact absurd hb hn
  unfold Braze.getByEmail BrazeInterface.export_users BrazeInterface.request at h
  rw [hact] at h
  simp at h

/-- C6: `delete(email)` first performs `get(email=email)`; when the result
is absent it fails with `BrazeUserNotFoundByEmailError` and none of the
issued HTTP calls is a delete; when `get` finds a record and the vendor
delete succeeds, `delete` issues exactly one additional `USERS_DELETE` call
and returns the previously fetched record wrapped in a single-element
list. -/
theorem C6_delete_contract (v : String → Option String) (iface : BrazeInterface)
    (oracle : HttpOracle) (email : String) :
    ((Braze.getByEmail v iface oracle email).1 = .ok Option.none →
      Braze.delete v iface oracle email
        = (.error .brazeUserNotFoundByEmail,
           (Braze.getByEmail v iface oracle email).2) ∧
      ∀ c ∈ (Braze.delete v iface oracle email).2,
        c.1 ≠ BrazeEndpoint.USERS_DELETE) ∧
    (∀ localRec r2, (Braze.getByEmail v iface oracle email).1 = .ok (some localRec) →
      localRec.truthy = true →
      (iface.delete_user oracle email).1 = .ok r2 →
      Braze.delete v iface oracle email
        = (.ok (.list [localRec]),
           (Braze.getByEmail v iface oracle email).2
             ++ [(BrazeEndpoint.USERS_DELETE, deleteUserData email)])) := by
  constructor
  · intro h
    have hd : Braze.delete v iface oracle email
        = (.error .brazeUserNotFoundByEmail,
           (Braze.getByEmail v iface oracle email).2) := by
      simp [Braze.delete, h]
    refine ⟨hd, ?_⟩
    intro c hc
    rw [hd] at hc
    rcases getByEmail_calls v iface oracle email c hc with h1 | h1 <;> simp [h1]
  · intro localRec r2 hg ht hdel
    have hact := active_of_getByEmail_ok_some v iface oracle email localRec hg
    have hdu2 : (iface.delete_user oracle email).2
        = [(BrazeEndpoint.USERS_DELETE, deleteUserData email)] := by
      unfold BrazeInterface.delete_user
      exact request_calls_active iface oracle _ _ hact
    simp [Braze.delete, hg, ht]
    rw [hdel]
    simp [hdu2]

/-- C7 counterexample: for the test registry, a vendor record and a
subscribed group whose id resolves to `"foo-news"` (in both directions),
`from_vendor` records the subscription in `newsletters`, yet feeding the
result back through `to_vendor` emits an empty `subscription_groups` — the
round trip does not restore the subscription state, because `from_vendor`
emits `newsletters` as a list of slugs and `to_vendor` only translates the
slug-to-bool dict form. -/
theorem C7_round_trip_loses_subscriptions_counterexample :
    PyDict.get (attributesOf (roundTrip vendorToSlugW slugToVendorW
        "2024-01-01T00:00:00" vendorRecordW.toPy (.list (toGroupDicts groupsW))))
        "subscription_groups" = some (.list []) ∧
    vendorToSlugW "234c9b4a-1785-4cd5-b839-5dbc134982eb" = some "foo-news" ∧
    slugToVendorW "foo-news" = some "234c9b4a-1785-4cd5-b839-5dbc134982eb" ∧
    (match Braze.from_vendor vendorToSlugW vendorRecordW.toPy
        (.list (toGroupDicts groupsW)) with
     | .ok (.dict d) => PyDict.get d "newsletters"
     | _ => Option.none) = some (.list [.str "foo-news"]) :=
  ⟨rfl, rfl, rfl, rfl⟩

/-- C7 amended: for every vendor record whose `email_subscribe` is one of
the three vendor states and every subscription-group list with resolvable
ids, `to_vendor(from_vendor(R, G))` derives the same `email_subscribe` as
R's original, but its `subscription_groups` is always empty — only the
opt-in state round-trips, not the subscription state. -/
theorem C7_round_trip_preserves_email_subscribe_only
    (v2s s2v : String → Option String) (now : String)
    (r : VendorRecord) (G : List (String × String))
    (hes : r.email_subscribe = "opted_in" ∨ r.email_subscribe = "unsubscribed" ∨
           r.email_subscribe = "subscribed")
    (_hres : ∀ g ∈ G, (v2s g.1).isSome) :
    PyDict.get (attributesOf (roundTrip v2s s2v now r.toPy (.list (toGroupDicts G))))
        "email_subscribe" = some (.str r.email_subscribe) ∧
    PyDict.get (attributesOf (roundTrip v2s s2v now r.toPy (.list (toGroupDicts G))))
        "subscription_groups" = some (.list []) := by
  have hfv := from_vendor_toPy v2s r G
  rcases hes with h | h | h <;>
    simp [roundTrip, hfv, attributesOf_to_vendor_some, PyDict.merge_nil_right,
          get_tvBillables_ne, merge_nil_basketOf, getN_basketOf_optin,
          getN_basketOf_optout, tvSubscriptionGroups_basketOf,
          get_tvUserAttributes_email_subscribe,
          get_tvUserAttributes_subscription_groups, h, PyVal.truthy]

/-- Witness for C7 at the test registry, record and group list. -/
theorem C7_round_trip_preserves_email_subscribe_only_witness :
    PyDict.get (attributesOf (roundTrip vendorToSlugW slugToVendorW
        "2024-01-01T00:00:00" vendorRecordW.toPy (.list (toGroupDicts groupsW))))
        "email_subscribe" = some (.str vendorRecordW.email_subscribe) ∧
    PyDict.get (attributesOf (roundTrip vendorToSlugW slugToVendorW
        "2024-01-01T00:00:00" vendorRecordW.toPy (.list (toGroupDicts groupsW))))
        "subscription_groups" = some (.list []) :=
  C7_round_trip_preserves_email_subscribe_only vendorToSlugW slugToVendorW
    "2024-01-01T00:00:00" vendorRecordW groupsW (Or.inl rfl) (by decide)

theorem newsletterSlugsCode_eq_spec (lookup : String → Option String)
    (hne : ∀ i s, lookup i = some s → s ≠ "") (G : List (String × String)) :
    newsletterSlugsCode lookup G = newslettersSpec lookup G := by
  unfold newsletterSlugsCode newslettersSpec
  rw [filterTruthySlugs_map lookup hne, List.filterMap_map]
  rfl

/-- C9: for every lookup whose slugs are non-empty, every vendor record
and every (id, status) group list, `from_vendor` succeeds and its
`newsletters` field equals the spec's description: keep exactly the groups
with status `"Subscribed"`, map their ids through the lookup, drop ids
with no mapping, and preserve the vendor response's order. -/
theorem C9_from_vendor_newsletters_refines_spec (lookup : String → Option String)
    (hne : ∀ i s, lookup i = some s → s ≠ "")
    (r : VendorRecord) (G : List (String × String)) :
    ∃ d : PyDict,
      Braze.from_vendor lookup r.toPy (.list (toGroupDicts G)) = .ok (.dict d) ∧
      PyDict.get d "newsletters"
        = some (.list ((newslettersSpec lookup G).map .str)) := by
  refine ⟨basketOf lookup r G, from_vendor_toPy lookup r G, ?_⟩
  have hb : PyDict.get (basketOf lookup r G) "newsletters"
      = some (.list ((newsletterSlugsCode lookup G).map .str)) := rfl
  rw [hb, newsletterSlugsCode_eq_spec lookup hne G]

/-- Witness for C9: a group list with two resolvable subscribed ids, one
unknown subscribed id and one unsubscribed id maps, in order, to
`["bar-news", "foo-news"]`. -/
theorem C9_from_vendor_newsletters_refines_spec_witness :
    ∃ d : PyDict,
      Braze.from_vendor vendorToSlugW vendorRecordW.toPy
          (.list (toGroupDicts
            [("78fe6671-9f94-48bd-aaf3-7e873536c3e6", "Subscribed"),
             ("0000aaaa-0000-0000-0000-000000000000", "Subscribed"),
             ("234c9b4a-1785-4cd5-b839-5dbc134982eb", "Subscribed"),
             ("234c9b4a-1785-4cd5-b839-5dbc134982eb", "Unsubscribed")]))
        = .ok (.dict d) ∧
      PyDict.get d "newsletters"
        = some (.list ((newslettersSpec vendorToSlugW
            [("78fe6671-9f94-48bd-aaf3-7e873536c3e6", "Subscribed"),
             ("0000aaaa-0000-0000-0000-000000000000", "Subscribed"),
             ("234c9b4a-1785-4cd5-b839-5dbc134982eb", "Subscribed"),
             ("234c9b4a-1785-4cd5-b839-5dbc134982eb", "Unsubscribed")]).map .str)) :=
  C9_from_vendor_newsletters_refines_spec vendorToSlugW
    (by
      intro i s h
      unfold vendorToSlugW at h
      split at h
      · cases h
        decide
      · split at h
        · cases h
          decide
        · exact absurd h (by simp))
    vendorRecordW
    [("78fe6671-9f94-48bd-aaf3-7e873536c3e6", "Subscribed"),
     ("0000aaaa-0000-0000-0000-000000000000", "Subscribed"),
     ("234c9b4a-1785-4cd5-b839-5dbc134982eb", "Subscribed"),
     ("234c9b4a-1785-4cd5-b839-5dbc134982eb", "Unsubscribed")]

/-- C10: (1) `Braze.add` on a record lacking an `email_id` raises
`AttributeError` before any vendor call — the source evaluates `data.email`,
attribute access on a dict, where the spec intends an email alias to be
supplied; (2) every payload `to_vendor` produces with `custom_attributes`
absent or lacking the key carries `_update_existing_only = true`; (3) with
`add`'s override `{"_update_existing_only": false}` the caller-supplied
value wins over the computed attributes. -/
theorem C10_update_existing_only_default_and_add_override :
    (Braze.add slugToVendorW "2024-01-01T00:00:00" iface304 oracleW
        [("email", .str "a@b.com")] = (.error (.attributeError "email"), [])) ∧
    (∀ (sv : String → Option String) (now : String) (e : Option PyDict)
        (ud : PyDict) (c : Option PyDict) (ev : Option PyVal),
      (∀ q ∈ (c.getD ([] : PyDict)), q.1 ≠ "_update_existing_only") →
      PyDict.get (attributesOf (Braze.to_vendor sv now e (some ud) c ev))
          "_update_existing_only" = some (.bool true)) ∧
    (∀ (sv : String → Option String) (now : String) (e : Option PyDict)
        (ud : PyDict) (ev : Option PyVal),
      PyDict.get (attributesOf (Braze.to_vendor sv now e (some ud)
          (some [("_update_existing_only", .bool false)]) ev))
          "_update_existing_only" = some (.bool false)) := by
  refine ⟨rfl, ?_, ?_⟩
  · intro sv now e ud c ev hc
    rw [attributesOf_to_vendor_some, PyDict.get_merge_ne _ _ _ hc,
        get_tvBillables_ne _ _ _ _ _ _ (by decide) (by decide) (by decide) (by decide)]
    exact get_tvUserAttributes_update_existing_only _ _ _ _ _
  · intro sv now e ud ev
    rw [attributesOf_to_vendor_some]
    dsimp only [Option.getD]
    rw [show ∀ X : PyDict,
          PyDict.merge X [("_update_existing_only", PyVal.bool false)]
            = PyDict.set X "_update_existing_only" (.bool false) from fun X => rfl]
    exact PyDict.get_set_self _ _ _

/-- Witness for C10's universal parts at a concrete update record. -/
theorem C10_update_existing_only_default_and_add_override_witness :
    PyDict.get (attributesOf (Braze.to_vendor slugToVendorW "2024-01-01T00:00:00"
        Option.none (some [("email", .str "a@b.com")]) Option.none Option.none))
        "_update_existing_only" = some (.bool true) ∧
    PyDict.get (attributesOf (Braze.to_vendor slugToVendorW "2024-01-01T00:00:00"
        Option.none (some [("email", .str "a@b.com")])
        (some [("_update_existing_only", .bool false)]) Option.none))
        "_update_existing_only" = some (.bool false) :=
  ⟨C10_update_existing_only_default_and_add_override.2.1 slugToVendorW
      "2024-01-01T00:00:00" Option.none [("email", .str "a@b.com")]
      Option.none Option.none (by intro q hq; simp at hq),
   C10_update_existing_only_default_and_add_override.2.2 slugToVendorW
      "2024-01-01T00:00:00" Option.none [("email", .str "a@b.com")] Option.none⟩

/-- Witness for C6: with an empty vendor world the delete fails with the
user-not-found error and issues no delete call; with a populated vendor
world it deletes and returns the fetched record in a one-element list. -/
theorem C6_delete_contract_witness :
    (Braze.delete vendorToSlugW iface304 oracleEmpty "missing@x.com"
        = (.error .brazeUserNotFoundByEmail,
           (Braze.getByEmail vendorToSlugW iface304 oracleEmpty "missing@x.com").2) ∧
      ∀ c ∈ (Braze.delete vendorToSlugW iface304 oracleEmpty "missing@x.com").2,
        c.1 ≠ BrazeEndpoint.USERS_DELETE) ∧
    Braze.delete vendorToSlugW iface304 oracleFull "test@example.com"
      = (.ok (.list [.dict (basketOf vendorToSlugW vendorRecordW groupsW)]),
         (Braze.getByEmail vendorToSlugW iface304 oracleFull "test@example.com").2
           ++ [(BrazeEndpoint.USERS_DELETE, deleteUserData "test@example.com")]) :=
  ⟨(C6_delete_contract vendorToSlugW iface304 oracleEmpty "missing@x.com").1 rfl,
   (C6_delete_contract vendorToSlugW iface304 oracleFull "test@example.com").2
     (.dict (basketOf vendorToSlugW vendorRecordW groupsW)) (some (.dict []))
     rfl rfl rfl⟩
